import Mathlib

/-!
Verification of `src/bulk_sync/utils.py` (django-bulk-sync).

Modelling choices (shallow embedding):

* A row is an association list from column names to integer values; a relation is
  a list of rows.  `DB` holds the target relation and the temporary (staging)
  relation.
* Python `set` objects over field-name lists are modelled by deduplicated lists
  (`pyset`); the claims depend only on membership, union and difference, and the
  iteration order of a Python `set` is unspecified anyway.
* The SQL fragments assembled inside `bulk_sync` (lines 73-76 and line 93 of
  `utils.py`) are modelled at the string / column-list level
  (`insert_columns`, `insert_fields_str`, `origin_columns`, `lookup_fields_str`,
  `join_filter_str`, `update_set_columns`).  In particular line 75 of the source
  iterates the already-joined *string* `insert_fields`, and the model reproduces
  that character-by-character iteration faithfully.
* The row-level effect of the executed statements (lines 78-91 and 95-105) is
  modelled at two levels.  `insertStep` and `updateStep` implement the set
  semantics the statements *spell out*: anti-join insert draining the inserted
  keys from staging, and join update draining the updated keys.  The scalar the
  code fetches after the update statement is produced by the trailing
  `DELETE ... RETURNING COUNT(*)` on the staging table, so the model reports
  that drain count as the "updated" statistic (`fetched`) and separately records
  the number of target rows the UPDATE itself overwrote (`overwritten`).
  On top of that, `bulk_sync_checked` models the store's *acceptance* of the
  insert statement: its SELECT list (one item per character of the joined
  string, line 75) never projects the INSERT's columns, and its trailing
  `SELECT COUNT(*) FROM inserted_rows` (line 88) stands after the semicolon of
  line 87, outside the statement that defines the CTE, so it reads a relation
  the store does not have.  A rejected statement aborts the transaction of
  line 70: the call ends in a store error with no stats.
* Python dynamic failures are modelled by `Except PyError`: `set(None)` raises
  `TypeError` (lines 68-69, reached with the `None` defaults of line 63), and
  the update branch's use of `join_filter` and `lookup_fields` — names assigned
  only inside the `if not skip_creates` branch (lines 74, 76) — raises
  `NameError` when `skip_creates` is true and `skip_updates` is false
  (lines 95-101).  `skip_deletes` is accepted (line 65) but never used, and
  `stats["deleted"]` is never written after its initialisation to 0.
* The staging loader `move_records_to_temporary_table` (lines 37-60) is modelled
  as the list of store actions it issues: nothing for an empty input, otherwise
  a temporary-table creation named after the first record's model class followed
  by one bulk-create of the whole input list.
-/

/-- Rows of a relation: an association list from column name to cell value. -/
abbrev Row : Type := List (String × Int)

/-- The key of a row with respect to a list of key fields: the tuple of its
values at those columns. -/
abbrev RKey : Type := List (Option Int)

/-- The store state seen by `bulk_sync`: the target table (`model_klass`) and
the temporary staging table (`temp_model_klass`). -/
structure DB where
  target : List Row
  staging : List Row
deriving DecidableEq, Repr

/-- The `stats` dictionary initialised at line 66 of `utils.py`. -/
structure Counters where
  inserted : Nat
  updated : Nat
  deleted : Nat
deriving DecidableEq, Repr

/-- Python runtime errors that `bulk_sync` can raise before touching the store:
`TypeError` from `set(None)` (lines 68-69) and `NameError` from the unbound
`join_filter` / `lookup_fields` in the update branch (lines 95-101). -/
inductive PyError where
  | typeError
  | nameError
deriving DecidableEq, Repr

/-- Model of Python `set(xs)` for a list of field names: deduplicated list;
only membership matters, Python set order being unspecified. -/
def pyset (xs : List String) : List String := xs.dedup

/-- Model of Python set union `a | b`. -/
def pyUnion (a b : List String) : List String := (a ++ b).dedup

/-- Model of Python set difference `a - b`. -/
def pyDiff (a b : List String) : List String := a.filter (fun x => decide (x ∉ b))

/-- Line 73: the column list of `insert_fields`, i.e.
`set_key_fields | set_fields - set_exclude_fields` (Python `-` binds tighter
than `|`, so this is key_fields union (fields minus exclude_fields)). -/
def insert_columns (key_fields fields exclude_fields : List String) : List String :=
  pyUnion (pyset key_fields) (pyDiff (pyset fields) (pyset exclude_fields))

/-- Line 73: the joined string `insert_fields = ", ".join(...)`. -/
def insert_fields_str (key_fields fields exclude_fields : List String) : String :=
  String.intercalate ", " (insert_columns key_fields fields exclude_fields)

/-- Line 75: `origin_fields` is built by iterating `insert_fields` — which at
that point is the already-joined *string* — so the comprehension runs once per
character, yielding one `origin.<char>` item per character of the string. -/
def origin_columns (key_fields fields exclude_fields : List String) : List String :=
  (insert_fields_str key_fields fields exclude_fields).toList.map
    (fun c => "origin." ++ String.mk [c])

/-- Line 74: `lookup_fields = ", ".join(set_key_fields)`. -/
def lookup_fields_str (key_fields : List String) : String :=
  String.intercalate ", " (pyset key_fields)

/-- Line 76: `join_filter`, iterating the original `key_fields` list. -/
def join_filter_str (key_fields : List String) : String :=
  String.intercalate " AND " (key_fields.map (fun k => "origin." ++ k ++ " = upstream." ++ k))

/-- Line 93: the columns written by the update statement's SET list, iterating
`set_fields - set_exclude_fields`. -/
def update_set_columns (fields exclude_fields : List String) : List String :=
  pyDiff (pyset fields) (pyset exclude_fields)

/-- Key of a row under the given key fields. -/
def keyOf (key_fields : List String) (r : Row) : RKey :=
  key_fields.map (fun c => List.lookup c r)

/-- Keys of every row of a relation. -/
def keysOf (key_fields : List String) (rel : List Row) : List RKey :=
  rel.map (keyOf key_fields)

/-- Lines 80-84: the rows the insert statement copies from staging into the
target — the staged rows whose key has no match in the target (anti-join via
`WHERE NOT EXISTS`). -/
def insert_rows (key_fields : List String) (target staging : List Row) : List Row :=
  staging.filter (fun r => decide (keyOf key_fields r ∉ keysOf key_fields target))

/-- Result of the insert step: new store state plus the scalar fetched by
`SELECT COUNT(*) FROM inserted_rows` (line 88). -/
structure InsertOut where
  db : DB
  inserted : Nat
deriving Repr

/-- Lines 78-91: insert the anti-join rows into the target, then delete from
staging the rows whose key is among the inserted keys (the CTE drain of
line 87), and count the inserted rows. -/
def insertStep (key_fields : List String) (db : DB) : InsertOut :=
  ⟨⟨db.target ++ insert_rows key_fields db.target db.staging,
    db.staging.filter (fun r =>
      decide (keyOf key_fields r ∉
        keysOf key_fields (insert_rows key_fields db.target db.staging)))⟩,
   (insert_rows key_fields db.target db.staging).length⟩

/-- Lines 97-98: the target rows the UPDATE statement overwrites — those whose
key matches some staged row (join on `join_filter`). -/
def updated_targets (key_fields : List String) (db : DB) : List Row :=
  db.target.filter (fun t => decide (keyOf key_fields t ∈ keysOf key_fields db.staging))

/-- Line 93 applied to one row: overwrite the SET-list columns of a target row
with the matching staged row's values. -/
def overwrite (updCols : List String) (src tgt : Row) : Row :=
  tgt.map (fun p => if p.1 ∈ updCols then (p.1, (List.lookup p.1 src).getD p.2) else p)

/-- Result of the update step: new store state, the number of target rows the
UPDATE itself overwrote, and the scalar actually fetched at line 105 — the
count produced by the trailing `DELETE ... RETURNING COUNT(*)` on the staging
table (lines 101-102), i.e. the number of staging rows drained. -/
structure UpdateOut where
  db : DB
  overwritten : Nat
  fetched : Nat
deriving Repr

/-- Lines 95-105: overwrite matched target rows with the staged values on the
SET-list columns, then delete from staging every row whose key is among the
updated keys (`RETURNING lookup_fields` of line 99 feeding the DELETE of
line 101), fetching the drain count. -/
def updateStep (key_fields updCols : List String) (db : DB) : UpdateOut :=
  ⟨⟨db.target.map (fun t =>
      if keyOf key_fields t ∈ keysOf key_fields db.staging then
        match db.staging.find? (fun r => decide (keyOf key_fields r = keyOf key_fields t)) with
        | some src => overwrite updCols src t
        | none => t
      else t),
    db.staging.filter (fun r =>
      decide (keyOf key_fields r ∉ keysOf key_fields (updated_targets key_fields db)))⟩,
   (updated_targets key_fields db).length,
   (db.staging.filter (fun r =>
      decide (keyOf key_fields r ∈ keysOf key_fields (updated_targets key_fields db)))).length⟩

/-- Lines 63-106: `bulk_sync`.  Parameter defaults of the source are
`fields=None`, `exclude_fields=None`, `skip_creates=True`, `skip_updates=True`,
`skip_deletes=True`.  `set(fields)` / `set(exclude_fields)` on `None`
raise `TypeError` before the transaction is opened; with `skip_creates` true
and `skip_updates` false the update branch raises `NameError` because
`join_filter` and `lookup_fields` were never assigned; `skip_deletes` is never
read and `stats["deleted"]` stays 0.  The source returns the stats wrapped as
`{"stats": stats}`; the model returns the store state and the stats. -/
def bulk_sync (db : DB) (key_fields : List String)
    (fields exclude_fields : Option (List String))
    (skip_creates skip_updates skip_deletes : Bool) :
    Except PyError (DB × Counters) :=
  match fields, exclude_fields with
  | none, _ => Except.error PyError.typeError
  | some _, none => Except.error PyError.typeError
  | some f, some ex =>
    match skip_creates, skip_updates with
    | true, true => Except.ok (db, ⟨0, 0, 0⟩)
    | true, false => Except.error PyError.nameError
    | false, true =>
      let s := insertStep key_fields db
      Except.ok (s.db, ⟨s.inserted, 0, 0⟩)
    | false, false =>
      let s := insertStep key_fields db
      let u := updateStep key_fields (update_set_columns f ex) s.db
      Except.ok (u.db, ⟨s.inserted, u.fetched, 0⟩)

/-- A caller-supplied record: its runtime model class and its column values
(lines 52, 57 read `instances[0].__class__`). -/
structure ModelInstance where
  klass : String
  data : Row
deriving DecidableEq, Repr

/-- Statements the staging loader issues against the store: the
`CREATE TEMPORARY TABLE ... AS SELECT * FROM ... LIMIT 0` of lines 31-34 and
the `bulk_create` of line 60. -/
inductive StoreAction where
  | createTempTable (tempName likeTable : String)
  | bulkCreate (tempName : String) (instances : List ModelInstance)
      (batch_size : Option Nat)
deriving DecidableEq, Repr

/-- Lines 14-15: the temporary table is named `temp_<model_name>`. -/
def temp_table_name (model_name : String) : String := "temp_" ++ model_name

/-- Lines 37-60: `move_records_to_temporary_table`.  An empty input returns
early issuing nothing (lines 47-49).  Otherwise the model class is taken from
the first element (line 52; the `AttributeError` handler of lines 53-55 is
unreachable here since every value carries a class), the temporary table is
created, and the *whole* input list is bulk-created into it — no homogeneity
check of the remaining elements is performed. -/
def move_records_to_temporary_table (instances : List ModelInstance)
    (batch_size : Option Nat) : List StoreAction :=
  match instances with
  | [] => []
  | first :: rest =>
    [StoreAction.createTempTable (temp_table_name first.klass) first.klass,
     StoreAction.bulkCreate (temp_table_name first.klass) (first :: rest) batch_size]

/-- Errors a `bulk_sync` call can end with once the store's statement
validation is modelled: the Python-level errors as before, or the store
rejecting a statement (a ProgrammingError), which aborts the enclosing
transaction of line 70 so no stats are returned. -/
inductive CallError where
  | py (e : PyError)
  | storeError
deriving DecidableEq, Repr

/-- Acceptance of the `INSERT ... SELECT` of lines 80-84: the store runs it
only if the SELECT list projects exactly the INSERT's columns, one
`origin.<column>` item per column name.  Because line 75 iterates the joined
string, the actual list has one item per *character* and is accepted only in
the degenerate case where the two coincide. -/
def insert_select_list_ok (key_fields fields exclude_fields : List String) : Bool :=
  origin_columns key_fields fields exclude_fields
    == (insert_columns key_fields fields exclude_fields).map (fun c => "origin." ++ c)

/-- Acceptance of the scalar `SELECT COUNT(*) FROM inserted_rows` of line 88:
it stands after the semicolon of line 87, outside the statement that defines
the CTE `inserted_rows`, so the relation it reads must be a stored one.
`stored_tables` lists the relations the store has — the target table and the
`temp_` staging table (lines 15, 32) — and none of them is `inserted_rows`. -/
def insert_count_select_ok (stored_tables : List String) : Bool :=
  stored_tables.contains "inserted_rows"

/-- The composed insert statement of lines 78-88 is run by the store only if
both of its parts are accepted. -/
def insert_statement_accepted (key_fields fields exclude_fields : List String)
    (stored_tables : List String) : Bool :=
  insert_select_list_ok key_fields fields exclude_fields
    && insert_count_select_ok stored_tables

/-- Lines 63-106 with the store's statement validation modelled on top of
`bulk_sync`: any branch that executes the insert statement (skip_creates
false) first submits it to the store, and a rejection aborts the whole call
with a store error before any counter exists.  The accepted case delegates to
the set semantics of `bulk_sync`. -/
def bulk_sync_checked (db : DB) (key_fields : List String)
    (fields exclude_fields : Option (List String))
    (skip_creates skip_updates skip_deletes : Bool)
    (stored_tables : List String) :
    Except CallError (DB × Counters) :=
  match fields, exclude_fields with
  | none, _ => Except.error (CallError.py PyError.typeError)
  | some _, none => Except.error (CallError.py PyError.typeError)
  | some f, some ex =>
    match skip_creates, skip_updates with
    | true, true => Except.ok (db, ⟨0, 0, 0⟩)
    | true, false => Except.error (CallError.py PyError.nameError)
    | false, su =>
      if insert_statement_accepted key_fields f ex stored_tables then
        Except.mapError CallError.py
          (bulk_sync db key_fields (some f) (some ex) false su skip_deletes)
      else Except.error CallError.storeError

/-- A small concrete store used by several evaluations. -/
def dbEx : DB := ⟨[[("id", 1)]], [[("id", 2)]]⟩

/-- C1: the INSERT's column list (line 73) is indeed the effective insert set
`key_fields union (fields minus exclude_fields)`, but the SELECT projection
(line 75) iterates the already-joined string, producing one column per
*character* — for key_fields=["id"], fields=["name"], exclude_fields=[] the
SELECT list has 8 items such as "origin.," instead of the 2 field columns the
claim states. -/
theorem C1_projection_per_character :
    insert_columns ["id"] ["name"] [] = ["id", "name"] ∧
    origin_columns ["id"] ["name"] []
      = ["origin.i", "origin.d", "origin.,", "origin. ",
         "origin.n", "origin.a", "origin.m", "origin.e"] :=
  ⟨rfl, rfl⟩

/-- C2: the steps are not independently skippable — with skip_creates=True and
skip_updates=False the update branch reaches the unbound names `join_filter`
and `lookup_fields` (assigned only in the insert branch) and raises NameError
instead of executing the update step. -/
theorem C2_update_alone_raises_name_error :
    bulk_sync dbEx ["id"] (some ["name"]) (some []) true false true
      = Except.error PyError.nameError :=
  rfl

/-- C3: calling bulk_sync with only key_fields supplied (fields and
exclude_fields left at their None defaults) raises TypeError at
`set(fields)` (line 68) instead of returning zero counters. -/
theorem C3_defaults_raise_type_error :
    bulk_sync dbEx ["id"] none none true true true
      = Except.error PyError.typeError :=
  rfl

/-- C5 counterexample: with key_fields=["id"], fields=["name"],
exclude_fields=[] the update SET list (line 93) is exactly ["name"]; the key
column "id" is not among the columns written by the update, refuting the claim
that key_fields is always included in the update-target column list. -/
theorem C5_key_not_in_update_columns :
    "id" ∈ (["id"] : List String) ∧
    update_set_columns ["name"] [] = ["name"] ∧
    "id" ∉ update_set_columns ["name"] [] := by
  refine ⟨by decide, rfl, by decide⟩

/-- C5 amended: the update-target column list is exactly
`fields minus exclude_fields`; a column (key field or not) is written by the
update precisely when it is listed in fields and not excluded. -/
theorem C5_update_columns_are_fields_minus_exclude (fields exclude_fields : List String)
    (c : String) :
    c ∈ update_set_columns fields exclude_fields ↔ c ∈ fields ∧ c ∉ exclude_fields := by
  simp [update_set_columns, pyDiff, pyset, List.mem_filter]

/-- C7 counterexample: with empty key_fields (fields and exclude_fields given
as empty lists, all skip flags at their defaults) bulk_sync does not raise any
ConfigurationError — no such validation exists in the code — and instead
succeeds, returning zero counters. -/
theorem C7_empty_key_fields_not_rejected :
    bulk_sync dbEx [] (some []) (some []) true true true
      = Except.ok (dbEx, ⟨0, 0, 0⟩) :=
  rfl

/-- C7 amended: bulk_sync performs no validation of key_fields; with empty
key_fields and every step skipped it issues no statement, leaves the store
unchanged and returns zero counters. -/
theorem C7_empty_key_fields_noop (db : DB) :
    bulk_sync db [] (some []) (some []) true true true
      = Except.ok (db, ⟨0, 0, 0⟩) :=
  rfl

/-- C8 counterexample: a two-element record list whose elements carry different
model classes is not rejected — the loader derives the staging table from the
first element and bulk-creates both records, mismatched one included; no
TypeMismatchError exists in the code. -/
theorem C8_heterogeneous_records_loaded :
    move_records_to_temporary_table
        [⟨"modela", []⟩, ⟨"modelb", []⟩] none
      = [StoreAction.createTempTable "temp_modela" "modela",
         StoreAction.bulkCreate "temp_modela" [⟨"modela", []⟩, ⟨"modelb", []⟩] none] :=
  rfl

/-- C8 amended: for every non-empty record list the loader performs no
homogeneity check — it creates the staging table from the first element's class
and bulk-loads the entire list as supplied. -/
theorem C8_loader_has_no_homogeneity_check (first : ModelInstance)
    (rest : List ModelInstance) (batch_size : Option Nat) :
    move_records_to_temporary_table (first :: rest) batch_size
      = [StoreAction.createTempTable (temp_table_name first.klass) first.klass,
         StoreAction.bulkCreate (temp_table_name first.klass) (first :: rest) batch_size] :=
  rfl

/-- C9: the staging loader called on an empty record list issues no store
action at all — no temporary table, no bulk insert — and returns normally
(the source's early `return` of lines 47-49). -/
theorem C9_empty_records_noop (batch_size : Option Nat) :
    move_records_to_temporary_table [] batch_size = [] :=
  rfl

/-- Keys of an appended relation split into the two relations' keys. -/
theorem keysOf_append (kf : List String) (a b : List Row) :
    keysOf kf (a ++ b) = keysOf kf a ++ keysOf kf b := by
  simp [keysOf]

/-- A staged row's key is among the keys of the anti-join insert set exactly
when it has no match in the target: the insert statement consumes precisely
the unmatched keys. -/
theorem mem_keysOf_insert_rows_iff (kf : List String) (db : DB) (r : Row)
    (hr : r ∈ db.staging) :
    keyOf kf r ∈ keysOf kf (insert_rows kf db.target db.staging)
      ↔ keyOf kf r ∉ keysOf kf db.target := by
  constructor
  · intro h
    obtain ⟨s, hs_mem, heq⟩ := List.mem_map.mp h
    have hsk : keyOf kf s ∉ keysOf kf db.target :=
      of_decide_eq_true (List.mem_filter.mp hs_mem).2
    rw [← heq]
    exact hsk
  · intro h
    exact List.mem_map_of_mem _ (List.mem_filter.mpr ⟨hr, decide_eq_true h⟩)

/-- After the insert step, the staging table holds exactly the staged rows
whose key already existed in the target. -/
theorem insertStep_staging_eq (kf : List String) (db : DB) :
    (insertStep kf db).db.staging
      = db.staging.filter (fun r => decide (keyOf kf r ∈ keysOf kf db.target)) := by
  show db.staging.filter _ = _
  apply List.filter_congr
  intro r hr
  rw [decide_eq_decide, mem_keysOf_insert_rows_iff kf db r hr]
  exact not_not

/-- A staged row's key is among the keys returned by the UPDATE exactly when
it matches some target row. -/
theorem mem_keysOf_updated_targets_iff (kf : List String) (db : DB) (r : Row)
    (hr : r ∈ db.staging) :
    keyOf kf r ∈ keysOf kf (updated_targets kf db)
      ↔ keyOf kf r ∈ keysOf kf db.target := by
  constructor
  · intro h
    obtain ⟨t, htm, hte⟩ := List.mem_map.mp h
    rw [← hte]
    exact List.mem_map_of_mem _ (List.mem_filter.mp htm).1
  · intro h
    obtain ⟨t, htm, hte⟩ := List.mem_map.mp h
    have htf : t ∈ updated_targets kf db := by
      refine List.mem_filter.mpr ⟨htm, decide_eq_true ?_⟩
      rw [hte]
      exact List.mem_map_of_mem _ hr
    rw [← hte]
    exact List.mem_map_of_mem _ htf

/-- When every staged row matches a target row, the update step drains the
whole staging table and its fetched count is the full staging size. -/
theorem updateStep_drains_all (kf cols : List String) (db : DB)
    (h : ∀ r ∈ db.staging, keyOf kf r ∈ keysOf kf db.target) :
    (updateStep kf cols db).fetched = db.staging.length ∧
    (updateStep kf cols db).db.staging = [] := by
  have key : ∀ r ∈ db.staging, keyOf kf r ∈ keysOf kf (updated_targets kf db) :=
    fun r hr => (mem_keysOf_updated_targets_iff kf db r hr).mpr (h r hr)
  constructor
  · exact congrArg List.length
      (List.filter_eq_self.mpr (fun r hr => decide_eq_true (key r hr)))
  · exact List.filter_eq_nil_iff.mpr
      (fun r hr hc => of_decide_eq_true hc (key r hr))

/-- A list splits by any Boolean predicate: the failing part plus the passing
part have the list's length. -/
theorem length_filter_not_add_length_filter (l : List Row) (p : Row → Bool) :
    (l.filter (fun r => !(p r))).length + (l.filter p).length = l.length := by
  induction l with
  | nil => rfl
  | cons a t ih =>
    cases hp : p a <;> simp [List.filter_cons, hp] <;> omega

/-- Conservation of the statements' *intended* set semantics: with all three
steps enabled and pairwise-distinct staging keys, the anti-join insert and the
join update together account for every distinct staged key and drain staging.
This is what the composed statements spell out; the program never exhibits it,
because the store rejects the insert statement (see `bulk_sync_checked`). -/
theorem statement_semantics_conservation (db : DB) (kf f ex : List String) (db2 : DB) (c : Counters)
    (h : bulk_sync db kf (some f) (some ex) false false false = Except.ok (db2, c))
    (hnd : (keysOf kf db.staging).Nodup) :
    c.inserted + c.updated = ((keysOf kf db.staging).dedup).length ∧
    db2.staging = [] := by
  have hrfl : bulk_sync db kf (some f) (some ex) false false false
      = Except.ok ((updateStep kf (update_set_columns f ex) (insertStep kf db).db).db,
          ⟨(insertStep kf db).inserted,
           (updateStep kf (update_set_columns f ex) (insertStep kf db).db).fetched, 0⟩) := rfl
  rw [hrfl] at h
  injection h with h
  rw [Prod.mk.injEq] at h
  obtain ⟨hdb, hc⟩ := h
  subst hdb
  subst hc
  have hkeys : ∀ r ∈ (insertStep kf db).db.staging,
      keyOf kf r ∈ keysOf kf (insertStep kf db).db.target := by
    intro r hr
    rw [insertStep_staging_eq] at hr
    obtain ⟨hr1, hr2⟩ := List.mem_filter.mp hr
    show keyOf kf r ∈ keysOf kf (db.target ++ insert_rows kf db.target db.staging)
    rw [keysOf_append]
    exact List.mem_append_left _ (of_decide_eq_true hr2)
  have hdrain := updateStep_drains_all kf (update_set_columns f ex) (insertStep kf db).db hkeys
  refine ⟨?_, hdrain.2⟩
  show (insertStep kf db).inserted
      + (updateStep kf (update_set_columns f ex) (insertStep kf db).db).fetched = _
  rw [hdrain.1, insertStep_staging_eq]
  have hsum : (db.staging.filter (fun r =>
        decide (keyOf kf r ∉ keysOf kf db.target))).length
      + (db.staging.filter (fun r =>
        decide (keyOf kf r ∈ keysOf kf db.target))).length
      = db.staging.length := by
    have hfe : db.staging.filter (fun r => decide (keyOf kf r ∉ keysOf kf db.target))
        = db.staging.filter (fun r => !(decide (keyOf kf r ∈ keysOf kf db.target))) :=
      List.filter_congr (fun r _ => by rw [decide_not])
    rw [hfe]
    exact length_filter_not_add_length_filter db.staging
      (fun r => decide (keyOf kf r ∈ keysOf kf db.target))
  show (insert_rows kf db.target db.staging).length
      + (db.staging.filter (fun r =>
          decide (keyOf kf r ∈ keysOf kf db.target))).length = _
  rw [insert_rows, hsum, List.Nodup.dedup hnd]
  simp [keysOf]

/-- Filtering a relation by a predicate on its key has the same length as
filtering the key list itself. -/
theorem length_filter_key (kf : List String) (rel : List Row) (P : RKey → Bool) :
    (rel.filter (fun r => P (keyOf kf r))).length = ((keysOf kf rel).filter P).length := by
  show _ = ((rel.map (keyOf kf)).filter P).length
  rw [← List.countP_eq_length_filter, ← List.countP_eq_length_filter, List.countP_map]
  rfl

/-- For a duplicate-free list, counting the members that also occur in a second
list computes the cardinality of the intersection of the two underlying sets. -/
theorem length_filter_mem_eq_card_inter (S T : List RKey) (hs : S.Nodup) :
    (S.filter (fun k => decide (k ∈ T))).length = (S.toFinset ∩ T.toFinset).card := by
  rw [← List.toFinset_card_of_nodup (hs.filter _)]
  congr 1
  ext k
  simp [List.mem_toFinset, List.mem_filter]

/-- Relation between the two counts of the update step's set semantics: the
drain count (what line 105 fetches) and the UPDATE's own row count coincide
when the staged keys and the target keys are each pairwise distinct; the C4
evaluation below shows them apart on a duplicate staged key. -/
theorem fetched_eq_overwritten_of_distinct_keys (kf cols : List String) (db : DB)
    (hs : (keysOf kf db.staging).Nodup) (ht : (keysOf kf db.target).Nodup) :
    (updateStep kf cols db).fetched = (updateStep kf cols db).overwritten := by
  have h1 : db.staging.filter (fun r =>
        decide (keyOf kf r ∈ keysOf kf (updated_targets kf db)))
      = db.staging.filter (fun r => decide (keyOf kf r ∈ keysOf kf db.target)) :=
    List.filter_congr (fun r hr => by
      rw [decide_eq_decide]
      exact mem_keysOf_updated_targets_iff kf db r hr)
  show (db.staging.filter (fun r =>
      decide (keyOf kf r ∈ keysOf kf (updated_targets kf db)))).length
    = (db.target.filter (fun t =>
      decide (keyOf kf t ∈ keysOf kf db.staging))).length
  rw [h1]
  rw [length_filter_key kf db.staging (fun k => decide (k ∈ keysOf kf db.target)),
      length_filter_key kf db.target (fun k => decide (k ∈ keysOf kf db.staging)),
      length_filter_mem_eq_card_inter _ _ hs,
      length_filter_mem_eq_card_inter _ _ ht,
      Finset.inter_comm]

/-- The store of the C4 evaluation: the target holds key 1, and staging holds
two rows with the duplicate key 1 (a caller contract violation the drain
count is sensitive to). -/
def dbC4 : DB :=
  ⟨[[("id", 1), ("name", 0)]],
   [[("id", 1), ("name", 5)], [("id", 1), ("name", 6)]]⟩

/-- C4: the update step never yields a counter produced by the UPDATE
statement — with skip_creates=True the branch dies on the unbound
`join_filter` / `lookup_fields` (NameError), and with skip_creates=False the
store rejects the malformed insert statement first, aborting the call — and
in the composed SQL the scalar fetched at line 105 is the drain
`DELETE ... RETURNING COUNT(*)`'s count (2 here, the staging rows removed),
not the UPDATE's own row count (1 here, a single target row overwritten). -/
theorem C4_update_counter_unreachable_and_wired_to_drain :
    bulk_sync_checked dbC4 ["id"] (some ["name"]) (some []) true false true
        ["syncmodel", "temp_syncmodel"]
      = Except.error (CallError.py PyError.nameError) ∧
    bulk_sync_checked dbC4 ["id"] (some ["name"]) (some []) false false true
        ["syncmodel", "temp_syncmodel"]
      = Except.error CallError.storeError ∧
    (updateStep ["id"] (update_set_columns ["name"] []) dbC4).fetched = 2 ∧
    (updateStep ["id"] (update_set_columns ["name"] []) dbC4).overwritten = 1 :=
  ⟨rfl, rfl, rfl, rfl⟩

/-- The store of the all-steps-enabled C6 evaluation: distinct staged keys,
one row to update and one to insert. -/
def dbW : DB :=
  ⟨[[("id", 1), ("name", 0)]],
   [[("id", 1), ("name", 2)], [("id", 2), ("name", 3)]]⟩

/-- C6: no all-steps-enabled call ever returns counters — the insert
statement's SELECT list is one item per character of the joined string and so
never projects the INSERT's columns, the store rejects the statement, and the
transaction rolls back with no stats — so the claimed conservation is never
exhibited by the program (the statements' intended set semantics would
satisfy it: `statement_semantics_conservation`). -/
theorem C6_all_steps_call_fails_at_store :
    bulk_sync_checked dbW ["id"] (some ["name"]) (some []) false false false
        ["syncmodel", "temp_syncmodel"]
      = Except.error CallError.storeError ∧
    insert_select_list_ok ["id"] ["name"] [] = false :=
  ⟨rfl, rfl⟩

/-- C10: no delete step exists — for every successful bulk_sync call the
deleted counter is 0, the target only ever grows (by exactly the inserted
rows; updates rewrite rows in place), and the result does not depend on
skip_deletes at all. -/
theorem C10_no_delete_step (db : DB) (kf : List String)
    (fields exclude_fields : Option (List String)) (sc su sd : Bool)
    (db2 : DB) (c : Counters)
    (h : bulk_sync db kf fields exclude_fields sc su sd = Except.ok (db2, c)) :
    c.deleted = 0 ∧ db2.target.length = db.target.length + c.inserted ∧
    ∀ sd' : Bool, bulk_sync db kf fields exclude_fields sc su sd'
      = Except.ok (db2, c) := by
  cases fields with
  | none => simp [bulk_sync] at h
  | some f =>
    cases exclude_fields with
    | none => simp [bulk_sync] at h
    | some ex =>
      cases sc with
      | true =>
        cases su with
        | true =>
          have hrfl : bulk_sync db kf (some f) (some ex) true true sd
              = Except.ok (db, ⟨0, 0, 0⟩) := rfl
          rw [hrfl] at h
          injection h with h
          rw [Prod.mk.injEq] at h
          obtain ⟨rfl, rfl⟩ := h
          exact ⟨rfl, by simp, fun sd' => rfl⟩
        | false => simp [bulk_sync] at h
      | false =>
        cases su with
        | true =>
          have hrfl : bulk_sync db kf (some f) (some ex) false true sd
              = Except.ok ((insertStep kf db).db,
                  ⟨(insertStep kf db).inserted, 0, 0⟩) := rfl
          rw [hrfl] at h
          injection h with h
          rw [Prod.mk.injEq] at h
          obtain ⟨hdb, hc⟩ := h
          subst hdb
          subst hc
          refine ⟨rfl, ?_, fun sd' => rfl⟩
          show (db.target ++ insert_rows kf db.target db.staging).length = _
          rw [List.length_append]
          rfl
        | false =>
          have hrfl : bulk_sync db kf (some f) (some ex) false false sd
              = Except.ok
                  ((updateStep kf (update_set_columns f ex) (insertStep kf db).db).db,
                   ⟨(insertStep kf db).inserted,
                    (updateStep kf (update_set_columns f ex) (insertStep kf db).db).fetched,
                    0⟩) := rfl
          rw [hrfl] at h
          injection h with h
          rw [Prod.mk.injEq] at h
          obtain ⟨hdb, hc⟩ := h
          subst hdb
          subst hc
          refine ⟨rfl, ?_, fun sd' => rfl⟩
          show ((insertStep kf db).db.target.map _).length = _
          rw [List.length_map]
          show (db.target ++ insert_rows kf db.target db.staging).length = _
          rw [List.length_append]
          rfl

/-- Witness for C10 at a concrete call that inserts one row. -/
theorem C10_no_delete_step_witness :
    bulk_sync dbEx ["id"] (some ["name"]) (some []) false true true
        = Except.ok (⟨[[("id", 1)], [("id", 2)]], []⟩, ⟨1, 0, 0⟩) ∧
    ((⟨1, 0, 0⟩ : Counters).deleted = 0 ∧
     (⟨[[("id", 1)], [("id", 2)]], []⟩ : DB).target.length
        = dbEx.target.length + (⟨1, 0, 0⟩ : Counters).inserted ∧
     ∀ sd' : Bool, bulk_sync dbEx ["id"] (some ["name"]) (some []) false true sd'
        = Except.ok (⟨[[("id", 1)], [("id", 2)]], []⟩, ⟨1, 0, 0⟩)) :=
  ⟨rfl,
   C10_no_delete_step dbEx ["id"] (some ["name"]) (some []) false true true
     ⟨[[("id", 1)], [("id", 2)]], []⟩ ⟨1, 0, 0⟩ rfl⟩
